import Mathlib

/-!
Shallow embedding of the bkv-matrix-normalizer normalization and
serialization pipeline (the processors under src/app/processors), together
with theorems checking the specification's claims against it.

Python string primitives (strip, lower, int(), float(), isdigit, replace)
are modelled over character lists.  Approximations, stated once here:
Python's unicode-aware isdigit/isalnum/lower are modelled by their ASCII
behaviour; underscore digit separators of int()/float() literals and the
inf/nan float literals are not modelled (for the latter two the observable
behaviour of the coercers is unchanged); str() of datetime and float
payloads is approximated where it is never reached by a theorem.
-/

namespace BKV

/-- The canonical scalar value produced by the cell coercers: the tagged
union over null, boolean, integer, float and string.  Python floats are
modelled as exact rationals. -/
inductive Value where
  | vNull : Value
  | vBool : Bool → Value
  | vInt : Int → Value
  | vFloat : ℚ → Value
  | vStr : String → Value
deriving DecidableEq, Repr

/-- A record: an insertion-ordered Python dict from field name to value. -/
abbrev PyRec := List (String × Value)

/-- Python str.strip on a character list. -/
def pyStripList (cs : List Char) : List Char :=
  ((cs.dropWhile Char.isWhitespace).reverse.dropWhile Char.isWhitespace).reverse

/-- Python str.strip. -/
def pyStrip (s : String) : String := String.mk (pyStripList s.toList)

/-- Python str.lower (ASCII model). -/
def pyLower (s : String) : String := String.mk (s.toList.map Char.toLower)

/-- Python str.upper (ASCII model). -/
def pyUpper (s : String) : String := String.mk (s.toList.map Char.toUpper)

/-- Python str.isdigit (ASCII model): nonempty and all digits. -/
def digitsOnly (cs : List Char) : Bool := !cs.isEmpty && cs.all Char.isDigit

/-- Numeric value of a digit string. -/
def digitsVal (cs : List Char) : Nat := cs.foldl (fun a c => a * 10 + (c.toNat - 48)) 0

/-- Python int(s) on an already stripped string: optional sign, then digits. -/
def pyIntParse (cs : List Char) : Option Int :=
  match cs with
  | '-' :: rest => if digitsOnly rest then some (-(digitsVal rest : Int)) else none
  | '+' :: rest => if digitsOnly rest then some ((digitsVal rest : Int)) else none
  | _ => if digitsOnly cs then some ((digitsVal cs : Int)) else none

/-- 10^e over ℚ for an integer exponent. -/
def pow10 (e : Int) : ℚ :=
  if 0 ≤ e then ((10 : ℚ) ^ e.toNat) else 1 / ((10 : ℚ) ^ (-e).toNat)

/-- Python float(s) on an already stripped string, as an exact rational:
sign? (digits [. digits?] | . digits) [(e|E) sign? digits]. -/
def pyFloatParse (cs : List Char) : Option ℚ :=
  let sgncs : ℚ × List Char :=
    match cs with
    | '-' :: rest => ((-1 : ℚ), rest)
    | '+' :: rest => ((1 : ℚ), rest)
    | _ => ((1 : ℚ), cs)
  let sgn := sgncs.1
  let cs0 := sgncs.2
  let ip := cs0.takeWhile Char.isDigit
  let cs1 := cs0.dropWhile Char.isDigit
  let fpcs : List Char × List Char :=
    match cs1 with
    | '.' :: rest => (rest.takeWhile Char.isDigit, rest.dropWhile Char.isDigit)
    | _ => ([], cs1)
  let fp := fpcs.1
  let cs2 := fpcs.2
  if ip.isEmpty && fp.isEmpty then none
  else
    let mant : ℚ := sgn * ((digitsVal ip : ℚ) + (digitsVal fp : ℚ) / ((10 : ℚ) ^ fp.length))
    match cs2 with
    | [] => some mant
    | e :: rest =>
      if e = 'e' ∨ e = 'E' then
        match rest with
        | '-' :: ds => if digitsOnly ds then some (mant * pow10 (-(digitsVal ds : Int))) else none
        | '+' :: ds => if digitsOnly ds then some (mant * pow10 ((digitsVal ds : Int))) else none
        | ds => if digitsOnly ds then some (mant * pow10 ((digitsVal ds : Int))) else none
      else none

/-- Remove every occurrence of the given characters (models the chained
single-character str.replace calls with an empty replacement). -/
def removeChars (bad : List Char) (cs : List Char) : List Char :=
  cs.filter (fun c => !(bad.contains c))

/-- excel_processor._process_cell_value's numeric gate:
cleaned.replace with dot, minus, plus removed, then isdigit. -/
def excelNumGate (cs : List Char) : Bool := digitsOnly (removeChars ['.', '-', '+'] cs)

/-- A raw spreadsheet cell as handed over by openpyxl: Python None, a
datetime (carrying its ISO form), an int, a float, a bool, a str, or any
other object (carrying its str() form). -/
inductive Cell where
  | cNone : Cell
  | cDt : String → Cell
  | cInt : Int → Cell
  | cFloat : ℚ → Cell
  | cBool : Bool → Cell
  | cStr : String → Cell
  | cOther : String → Cell
deriving DecidableEq, Repr

/-- float narrowing: if float and mathematically integral, int(float_val). -/
def narrowFloat (q : ℚ) : Value := if q.den = 1 then .vInt q.num else .vFloat q

/-- The string branch of excel_processor._process_cell_value: strip, try
the numeric gate and int()/float(), then the boolean tuple
(true, false, yes, no, 1, 0), else the stripped string verbatim. -/
def excelCoerceStr (s : String) : Value :=
  let cleaned := pyStripList s.toList
  let numv : Option Value :=
    if excelNumGate cleaned then
      if cleaned.contains '.' then (pyFloatParse cleaned).map narrowFloat
      else (pyIntParse cleaned).map Value.vInt
    else none
  match numv with
  | some v => v
  | none =>
    let low := pyLower (String.mk cleaned)
    if low == "true" || low == "false" || low == "yes" || low == "no" || low == "1" || low == "0"
    then .vBool (low == "true" || low == "yes" || low == "1")
    else .vStr (String.mk cleaned)

/-- excel_processor._process_cell_value.  A Python bool is an int, so a
bool cell is returned unchanged by the numeric branch; datetimes become
their ISO string; integral floats narrow to int. -/
def excelProcessCellValue : Cell → Value
  | .cNone => .vNull
  | .cDt iso => .vStr iso
  | .cInt n => .vInt n
  | .cFloat q => narrowFloat q
  | .cBool b => .vBool b
  | .cStr s => excelCoerceStr s
  | .cOther s => .vStr s

/-- Python dict assignment d[k] = v on an insertion-ordered assoc list:
replace in place when the key exists, else append. -/
def dictInsert {α : Type} (d : List (String × α)) (k : String) (v : α) : List (String × α) :=
  if d.any (fun p => p.1 == k) then d.map (fun p => if p.1 = k then (k, v) else p)
  else d ++ [(k, v)]

/-- str(cell) as used for header cells.  The datetime and float forms are
approximations never reached by a theorem of this file. -/
def cellStr : Cell → String
  | .cNone => "None"
  | .cDt iso => iso
  | .cInt n => toString n
  | .cFloat q => toString q
  | .cBool b => if b then "True" else "False"
  | .cStr s => s
  | .cOther s => s

/-- Header synthesis of excel_processor: str(cell) when the cell is not
None, else the positional name Column_(i+1). -/
def mkHeaders (hrow : List Cell) : List String :=
  hrow.enum.map (fun p =>
    match p.2 with
    | .cNone => "Column_" ++ toString (p.1 + 1)
    | c => cellStr c)

/-- One data row of a sheet: for each cell with index below the header
count, assign the coerced value to the header name (dict semantics). -/
def buildRow (headers : List String) (row : List Cell) : PyRec :=
  (row.enum.filter (fun p => decide (p.1 < headers.length))).foldl
    (fun acc p => dictInsert acc (headers.getD p.1 "") (excelProcessCellValue p.2)) []

/-- A row is kept before header selection iff some cell is not None. -/
def rowNonEmpty (row : List Cell) : Bool := row.any (fun c => !(c == Cell.cNone))

/-- A record is kept iff at least one of its coerced values is non-null. -/
def recHasNonNull (r : PyRec) : Bool := r.any (fun p => !(p.2 == Value.vNull))

structure SheetData where
  headers : List String
  data : List PyRec
  row_count : Nat
  column_count : Nat
  sheet_name : String
deriving DecidableEq, Repr

/-- excel_processor._process_sheet: drop fully empty rows, first remaining
row gives headers, remaining rows become records, records with only null
values are dropped; an empty outcome means the sheet is skipped. -/
def excelProcessSheet (name : String) (rows : List (List Cell)) : Option SheetData :=
  if rows.isEmpty then none
  else
    let rows2 := rows.filter rowNonEmpty
    match rows2 with
    | [] => none
    | hrow :: dataRows =>
      let headers := mkHeaders hrow
      let data := (dataRows.map (buildRow headers)).filter recHasNonNull
      if data.isEmpty then none
      else some ⟨headers, data, data.length, headers.length, name⟩

structure ExcelResult where
  filename : String
  file_type : String
  sheets : List (String × SheetData)
  sheet_count : Nat
  processed_at : String
  total_rows : Nat
deriving DecidableEq, Repr

/-- An openpyxl workbook, values only: sheets in source order, each a name
with its rows of raw cells. -/
abbrev Workbook := List (String × List (List Cell))

/-- excel_processor.process_file.  The wall-clock instant read by
datetime.now at return time is passed in as the `now` argument; the
per-sheet exception handler of the source is unreachable in this pure
embedding. -/
def excelProcessFile (wb : Workbook) (filename now : String) : Except String ExcelResult :=
  let processed := wb.filterMap (fun p => (excelProcessSheet p.1 p.2).map (fun sd => (p.1, sd)))
  if processed.isEmpty then
    Except.error "Excel processing failed: No valid data found in Excel file"
  else
    Except.ok ⟨filename, "xlsx", processed, processed.length, now,
      (processed.map (fun p => p.2.data.length)).sum⟩

structure SheetPreview where
  headers : List String
  preview_data : List PyRec
  total_rows : Nat
  preview_rows : Nat
deriving DecidableEq, Repr

/-- The per-sheet body of excel_processor.get_preview: headers straight
from rows[0] (no empty-row removal), then rows[1 : max_rows+1] coerced
with no all-null filtering. -/
def excelPreviewSheet (rows : List (List Cell)) (maxRows : Nat) : Option SheetPreview :=
  if rows.isEmpty then none
  else
    let headers := mkHeaders (rows.headD [])
    let prows := ((rows.drop 1).take maxRows).map (buildRow headers)
    some ⟨headers, prows, rows.length - 1, prows.length⟩

structure ExcelPreview where
  filename : String
  file_type : String
  sheets : List (String × SheetPreview)
  sheet_count : Nat
deriving DecidableEq, Repr

/-- excel_processor.get_preview: at most the first 3 sheets. -/
def excelGetPreview (wb : Workbook) (filename : String) (maxRows : Nat) : ExcelPreview :=
  let previews := (wb.take 3).filterMap
    (fun p => (excelPreviewSheet p.2 maxRows).map (fun sp => (p.1, sp)))
  ⟨filename, "xlsx", previews, previews.length⟩

instance {ε α : Type} [DecidableEq ε] [DecidableEq α] : DecidableEq (Except ε α) := fun a b =>
  match a, b with
  | .ok x, .ok y =>
      if h : x = y then .isTrue (by rw [h]) else .isFalse (by intro c; injection c; contradiction)
  | .error x, .error y =>
      if h : x = y then .isTrue (by rw [h]) else .isFalse (by intro c; injection c; contradiction)
  | .ok _, .error _ => .isFalse (by intro c; injection c)
  | .error _, .ok _ => .isFalse (by intro c; injection c)

/-- Erase the only time-dependent field of an excel result. -/
def eraseProcessedAt (r : ExcelResult) : ExcelResult :=
  ⟨r.filename, r.file_type, r.sheets, r.sheet_count, "", r.total_rows⟩

/-! ### Encoding and delimiter detection (csv_processor, json_processor) -/

/-- The outcome of the external statistical detector chardet.detect:
the reported encoding (None possible) and the confidence. -/
structure ChardetResult where
  encoding : Option String
  confidence : ℚ
deriving Repr

/-- First element of the candidate list that strictly decodes the input
bytes; decodability of the fixed input is abstracted as an oracle. -/
def firstDecoding (canDecode : String → Bool) : List String → Option String
  | [] => none
  | e :: rest => if canDecode e then some e else firstDecoding canDecode rest

/-- csv_processor._detect_encoding: chardet, then on a missing/empty
encoding or confidence below 0.7 the ladder utf-8, latin-1, cp1252,
iso-8859-1, then utf-8.  Total, hence never raises. -/
def csvDetectEncoding (r : ChardetResult) (canDecode : String → Bool) : String :=
  let ladder := (firstDecoding canDecode ["utf-8", "latin-1", "cp1252", "iso-8859-1"]).getD "utf-8"
  match r.encoding with
  | none => ladder
  | some e => if e = "" ∨ r.confidence < 7/10 then ladder else e

/-- json_processor._detect_encoding: chardet with a utf-8 default, and on
confidence below 0.7 the ladder utf-8, utf-8-sig, utf-16, latin-1; when no
ladder entry decodes, the chardet (or default) name is returned. -/
def jsonDetectEncoding (r : ChardetResult) (canDecode : String → Bool) : String :=
  let e0 := r.encoding.getD "utf-8"
  let enc := if e0 = "" then "utf-8" else e0
  if r.confidence < 7/10 then
    match firstDecoding canDecode ["utf-8", "utf-8-sig", "utf-16", "latin-1"] with
    | some e => e
    | none => enc
  else enc

/-- Modelled from the spec: the fallback ladder of the EncodingSniffer as
the specification words it, utf-8, utf-8 with BOM, utf-16, latin-1/cp1252,
returning the first that strictly decodes, else utf-8. -/
def specEncodingFallback (canDecode : String → Bool) : String :=
  (firstDecoding canDecode ["utf-8", "utf-8-sig", "utf-16", "latin-1", "cp1252"]).getD "utf-8"

/-- The candidate delimiters, in the source's order. -/
def delimCandidates : List Char := [',', ';', '\t', '|']

/-- Python max(dict, key=dict.get) over (delimiter, count) pairs in
insertion order: the first key attaining the maximal count. -/
def maxByFirst (first : Char × Nat) (rest : List (Char × Nat)) : Char :=
  (rest.foldl (fun best p => if p.2 > best.2 then p else best) first).1

/-- csv_processor._detect_delimiter: sample the first 2048 characters, try
csv.Sniffer restricted to the candidates (external heuristic, abstracted
as an oracle returning none when it raises csv.Error), else count each
candidate in the sample and take the first with the highest count. -/
def detectDelimiter (sniff : List Char → Option Char) (text : String) : Char :=
  let sample := text.toList.take 2048
  match sniff sample with
  | some d => d
  | none =>
    maxByFirst (',', sample.count ',')
      [(';', sample.count ';'), ('\t', sample.count '\t'), ('|', sample.count '|')]

/-! ### JSON document model

The values handed around by json.loads / json.dumps.  json.dumps of one
object per line (no indent) contains no raw newline, so the jsonl output
is modelled as the list of line objects and the json output as the single
document object; the final textual dump is the external printer of these.
-/

inductive Json where
  | jNull : Json
  | jBool : Bool → Json
  | jInt : Int → Json
  | jNum : ℚ → Json
  | jStr : String → Json
  | jArr : List Json → Json
  | jObj : List (String × Json) → Json
deriving Repr

/-- json.dumps string escaping with ensure_ascii False: quote, backslash
and ASCII control characters escaped, everything else literal. -/
def jsonEscapeChar (c : Char) : List Char :=
  if c = '"' then ['\\', '"']
  else if c = '\\' then ['\\', '\\']
  else if c = '\n' then ['\\', 'n']
  else if c = '\t' then ['\\', 't']
  else if c = '\r' then ['\\', 'r']
  else if c.toNat < 32 then
    let d1 := Nat.digitChar (c.toNat / 16)
    let d2 := Nat.digitChar (c.toNat % 16)
    ['\\', 'u', '0', '0', d1, d2]
  else [c]

def jsonEscape (s : String) : String := String.mk ((s.toList.map jsonEscapeChar).flatten)

/-- Interleave a separator between strings. -/
def joinSep (sep : String) : List String → String
  | [] => ""
  | [x] => x
  | x :: rest => x ++ sep ++ joinSep sep rest

mutual

/-- json.dumps with the default separators.  The textual form of a float
is approximated by the rational printer; no theorem reaches it. -/
def jsonDumps : Json → String
  | .jNull => "null"
  | .jBool true => "true"
  | .jBool false => "false"
  | .jInt n => toString n
  | .jNum q => toString q
  | .jStr s => "\"" ++ jsonEscape s ++ "\""
  | .jArr xs => "[" ++ joinSep ", " (jsonDumpsList xs) ++ "]"
  | .jObj fs => "\x7b" ++ joinSep ", " (jsonDumpsFields fs) ++ "\x7d"

def jsonDumpsList : List Json → List String
  | [] => []
  | x :: rest => jsonDumps x :: jsonDumpsList rest

def jsonDumpsFields : List (String × Json) → List String
  | [] => []
  | p :: rest => ("\"" ++ jsonEscape p.1 ++ "\": " ++ jsonDumps p.2) :: jsonDumpsFields rest

end

/-! ### CSV/TSV processor (csv_processor) -/

/-- Split a character list on a character, keeping empty segments. -/
def splitOnChar (c : Char) : List Char → List (List Char)
  | [] => [[]]
  | d :: rest =>
    let r := splitOnChar c rest
    if d = c then [] :: r
    else
      match r with
      | [] => [[d]]
      | h :: t => (d :: h) :: t

/-- pathlib Path(filename).suffix for a plain (non-dotfile-special-cased)
path: the final dot-separated extension with its dot, empty for no dot, a
trailing dot, or a leading-dot-only name. -/
def pathSuffix (filename : String) : String :=
  let name := ((splitOnChar '/' filename.toList).getLastD [])
  let parts := splitOnChar '.' name
  match parts with
  | [] => ""
  | [_] => ""
  | _ =>
    let last := parts.getLastD []
    if last.isEmpty then ""
    else if (parts.headD ['x']).isEmpty && parts.length = 2 then ""
    else String.mk ('.' :: last)

/-- Path(filename).suffix.lower().lstrip(".") or "csv". -/
def csvRawExt (filename : String) : String :=
  let e0 := (pathSuffix filename).toList.map Char.toLower
  let e1 := e0.dropWhile (fun c => c = '.')
  if e1.isEmpty then "csv" else String.mk e1

/-- The dialect of csv_processor.process_file: the raw extension forced
into csv/tsv. -/
def csvFileExt (filename : String) : String :=
  if csvRawExt filename = "csv" ∨ csvRawExt filename = "tsv" then csvRawExt filename
  else "csv"

/-- re.sub of runs of whitespace/underscore by a single underscore,
written with a flag recording whether the previous character belonged to
the current run. -/
def collapseAux (prev : Bool) : List Char → List Char
  | [] => []
  | c :: rest =>
    if c.isWhitespace || c = '_' then
      if prev then collapseAux true rest else '_' :: collapseAux true rest
    else c :: collapseAux false rest

def collapseWsUnderscore (cs : List Char) : List Char := collapseAux false cs

/-- Python str.strip("_"). -/
def stripUnderscores (cs : List Char) : List Char :=
  ((cs.dropWhile (fun c => c = '_')).reverse.dropWhile (fun c => c = '_')).reverse

/-- csv_processor._clean_column_name (the pd.isna branch is unreachable
for the string headers modelled here). -/
def cleanColumnName (s : String) : String :=
  let cleaned := pyStripList s.toList
  if cleaned.isEmpty then "Unnamed_Column"
  else
    let kept := cleaned.map (fun c =>
      if c.isAlphanum || c = '_' || c = '-' || c = ' ' then c else '_')
    let collapsed := collapseWsUnderscore kept
    let stripped := stripUnderscores collapsed
    if stripped.isEmpty then "Unnamed_Column" else String.mk stripped

/-- Python float(s) acceptance as used by csv_processor._is_number. -/
def isNumberStr (cs : List Char) : Bool := (pyFloatParse cs).isSome

/-- The string branch of csv_processor._process_cell_value: strip, empty
becomes null, then numeric parse gated by float() acceptance, then the
boolean tuple (true, false, yes, no) without 1/0, else the string. -/
def csvCoerceStr (s : String) : Value :=
  let cleaned := pyStripList s.toList
  if cleaned.isEmpty then .vNull
  else
    let numv : Option Value :=
      if isNumberStr cleaned then
        if cleaned.contains '.' then (pyFloatParse cleaned).map narrowFloat
        else (pyIntParse cleaned).map Value.vInt
      else none
    match numv with
    | some v => v
    | none =>
      let low := pyLower (String.mk cleaned)
      if low == "true" || low == "false" || low == "yes" || low == "no"
      then .vBool (low == "true" || low == "yes")
      else .vStr (String.mk cleaned)

/-- csv_processor._process_cell_value on one parsed cell.  A cell is
modelled as the textual field pandas read, none standing for the
configured NA sentinels (pd.isna).  For the plain integer, decimal and
boolean literals the theorems exercise, the string branch re-derives
exactly the value pandas' dtype inference would hand over; scientific
notation and underscore literals are the known divergence of that
textual model (a lone 1e3 column is inferred to 1000.0 by pandas while
the string branch keeps the string), and no theorem of this file
reaches such a cell. -/
def csvProcessCellValue : Option String → Value
  | none => .vNull
  | some s => csvCoerceStr s

/-- One record of the tabular reader: for each cleaned column name, the
coerced cell at its position (dict assignment per column).  A table
whose cleaned headers collide would in the source fail the conversion
(row[col] over duplicate labels yields a Series that the coercer then
stringifies oddly or chokes on); dict-overwrite semantics stand in for
that here, and no theorem uses colliding headers. -/
def buildCsvRow (headers : List String) (row : List (Option String)) : PyRec :=
  headers.enum.foldl
    (fun acc p => dictInsert acc p.2 (csvProcessCellValue (row.getD p.1 none))) []

structure CsvResult where
  filename : String
  file_type : String
  data : List PyRec
  headers : List String
  row_count : Nat
  column_count : Nat
  encoding : String
  delimiter : String
  processed_at : String
deriving DecidableEq, Repr

/-- The table produced by pd.read_csv on the decoded text: the header
fields and the data rows, a cell being none when it matched an NA
sentinel or was missing. -/
abbrev ParsedTable := List String × List (List (Option String))

/-- csv_processor.process_file downstream of the external
decode/pd.read_csv steps: the detected encoding and delimiter and the
parsed table are threaded in; headers are cleaned, every cell coerced,
one record per data row. -/
def csvProcessFile (parsed : ParsedTable) (filename encoding delimiter now : String) : CsvResult :=
  let ext := csvFileExt filename
  let headers := parsed.1.map cleanColumnName
  let data := parsed.2.map (buildCsvRow headers)
  ⟨filename, ext, data, headers, data.length, headers.length, encoding, delimiter, now⟩

/-- The preview rows of csv_processor.get_preview downstream of its own
external parse: get_preview re-runs pd.read_csv with nrows=max_rows, a
separate parse threaded in as its own table.  Because pandas re-infers
dtypes over the truncated sample, this table need not be the truncation
of the full parse (a column 1e3, x parses to the string 1e3 in full but
to the float 1000.0 under nrows=1), so preview values can differ from
the full result's prefix; the two agree exactly when the re-parse
returns the truncated rows with the same cell texts. -/
def csvGetPreviewData (parsedPrev : ParsedTable) : List PyRec :=
  let headers := parsedPrev.1.map cleanColumnName
  parsedPrev.2.map (buildCsvRow headers)

/-! ### JSON processor (json_processor) -/

mutual

/-- pandas json_normalize flattening (nested_to_record) of an object's
fields under a dotted prefix: nested objects recurse, every other value
is kept; produces the raw key/value stream, combined with dict update
semantics by the caller. -/
def flattenFields (pre : String) : List (String × Json) → List (String × Json)
  | [] => []
  | p :: rest =>
    let key := if pre == "" then p.1 else pre ++ "." ++ p.1
    flattenEntry key p.2 ++ flattenFields pre rest

def flattenEntry (key : String) : Json → List (String × Json)
  | .jObj inner => flattenFields key inner
  | v => [(key, v)]

end

/-- Fold a key/value stream into a Python dict. -/
def pyDictOf {α : Type} (ps : List (String × α)) : List (String × α) :=
  ps.foldl (fun acc p => dictInsert acc p.1 p.2) []

/-- One flattened record of pd.json_normalize(sep="."). -/
def jsonNormalizeRecord (fields : List (String × Json)) : List (String × Json) :=
  pyDictOf (flattenFields "" fields)

/-- The union of the keys of the flattened records in first-seen order
(the DataFrame's column list). -/
def unionKeysFirstSeen (recs : List (List (String × Json))) : List String :=
  recs.foldl (fun acc r => r.foldl
    (fun acc2 p => if acc2.contains p.1 then acc2 else acc2 ++ [p.1]) acc) []

/-- A record as the json processor holds it between normalisation and
sanitisation: field name to raw JSON value, none standing for pd.NA
(a value missing from that record's source object). -/
abbrev RawRec := List (String × Option Json)

/-- pd.json_normalize + fillna(pd.NA) + to_dict(records): flatten each
object, then expand each to the full column list with NA for absences.
The dtype promotion pandas applies to numeric columns containing missing
values is not modelled; no theorem depends on a promoted value. -/
def jsonNormalizeObjs (objs : List (List (String × Json))) : List RawRec :=
  let flats := objs.map jsonNormalizeRecord
  let cols := unionKeysFirstSeen flats
  flats.map (fun r => cols.map (fun c => (c, List.lookup c r)))

/-- Are all elements objects (the all(isinstance(item, dict)) test)? -/
def allObjs? : List Json → Option (List (List (String × Json)))
  | [] => some []
  | .jObj fs :: rest => (allObjs? rest).map (fun t => fs :: t)
  | _ => none

/-- The record-array key probe of json_processor._normalize_payload:
first of data, records, items, rows whose value is a list. -/
def firstListKey (fields : List (String × Json)) : Option (List Json) :=
  match List.lookup "data" fields with
  | some (.jArr xs) => some xs
  | _ =>
    match List.lookup "records" fields with
    | some (.jArr xs) => some xs
    | _ =>
      match List.lookup "items" fields with
      | some (.jArr xs) => some xs
      | _ =>
        match List.lookup "rows" fields with
        | some (.jArr xs) => some xs
        | _ => none

/-- The list branch of _normalize_payload. -/
def normalizeJsonList (xs : List Json) : List RawRec :=
  if xs.isEmpty then []
  else
    match allObjs? xs with
    | some objs => jsonNormalizeObjs objs
    | none => xs.map (fun item => [("value", some item)])

/-- json_processor._normalize_payload. -/
def normalizePayload (payload : Json) : List RawRec :=
  match payload with
  | .jObj fields =>
    (match firstListKey fields with
     | some xs => normalizeJsonList xs
     | none => [fields.map (fun p => (p.1, some p.2))])
  | .jArr xs => normalizeJsonList xs
  | v => [[("value", some v)]]

/-- Python code-point lexicographic string order. -/
def lexLe : List Char → List Char → Bool
  | [], _ => true
  | _ :: _, [] => false
  | a :: as, b :: bs =>
    if a.toNat < b.toNat then true
    else if b.toNat < a.toNat then false
    else lexLe as bs

def strLe (a b : String) : Bool := lexLe a.toList b.toList

def insertSorted (s : String) : List String → List String
  | [] => [s]
  | t :: rest => if strLe s t then s :: t :: rest else t :: insertSorted s rest

/-- Python sorted() over strings. -/
def sortStrings (l : List String) : List String := l.foldr insertSorted []

/-- headers = sorted set of all record keys. -/
def jsonHeaders (records : List RawRec) : List String :=
  sortStrings ((records.map (fun r => r.map Prod.fst)).flatten.dedup)

/-- json_processor._process_value on a record entry: missing key or NA
become null; scalars pass through; lists and objects are re-encoded as
compact JSON text (the datetime branch is unreachable from json.loads
payloads).  In the source the pd.isna probe on a multi-element list
returns an array whose truth test raises ValueError — only TypeError is
caught — failing the whole conversion; that error path is collapsed
into the dumps branch here, and no theorem of this file evaluates a
list or object value. -/
def jsonProcessValue : Option (Option Json) → Value
  | none => .vNull
  | some none => .vNull
  | some (some j) =>
    match j with
    | .jNull => .vNull
    | .jBool b => .vBool b
    | .jInt n => .vInt n
    | .jNum q => .vFloat q
    | .jStr s => .vStr s
    | .jArr xs => .vStr (jsonDumps (.jArr xs))
    | .jObj fs => .vStr (jsonDumps (.jObj fs))

/-- json_processor._sanitize_record. -/
def sanitizeRecord (headers : List String) (r : RawRec) : PyRec :=
  headers.map (fun h => (h, jsonProcessValue (List.lookup h r)))

structure JsonResult where
  filename : String
  file_type : String
  data : List PyRec
  headers : List String
  row_count : Nat
  column_count : Nat
  encoding : String
  processed_at : String
deriving DecidableEq, Repr

/-- json_processor.process_file downstream of decoding and json.loads:
the parsed payload is normalised, headers computed, records sanitised.
There is no error path here: a payload with no derivable records yields
an empty result, and the except clauses of the source fire only on
exceptions of the external decode/parse steps. -/
def jsonProcessFile (payload : Json) (filename encoding now : String) :
    Except String JsonResult :=
  let records := normalizePayload payload
  let headers := jsonHeaders records
  let data := records.map (sanitizeRecord headers)
  Except.ok ⟨filename, "json", data, headers, data.length, headers.length, encoding, now⟩

/-! ### Output generator (json_generator) -/

/-- The processed-data dictionary handed to JSONGenerator.generate_output,
with exactly the keys the generator reads; a none field models an absent
key (dict.get returning None). -/
structure ProcessedData where
  filename : Option String
  file_type : Option String
  sheets : Option (List (String × SheetData))
  sheet_count : Option Nat
  total_rows : Option Nat
  data : Option (List PyRec)
  headers : Option (List String)
  row_count : Option Nat
  column_count : Option Nat
  encoding : Option String
  delimiter : Option String

def excelToPD (r : ExcelResult) : ProcessedData :=
  ⟨some r.filename, some r.file_type, some r.sheets, some r.sheet_count,
   some r.total_rows, none, none, none, none, none, none⟩

def csvToPD (r : CsvResult) : ProcessedData :=
  ⟨some r.filename, some r.file_type, none, none, none,
   some r.data, some r.headers, some r.row_count, some r.column_count,
   some r.encoding, some r.delimiter⟩

def jsonToPD (r : JsonResult) : ProcessedData :=
  ⟨some r.filename, some r.file_type, none, none, none,
   some r.data, some r.headers, some r.row_count, some r.column_count,
   some r.encoding, none⟩

/-- json.dumps of a possibly absent string. -/
def optStrJson : Option String → Json
  | none => .jNull
  | some s => .jStr s

def valueToJson : Value → Json
  | .vNull => .jNull
  | .vBool b => .jBool b
  | .vInt n => .jInt n
  | .vFloat q => .jNum q
  | .vStr s => .jStr s

def recToFields (r : PyRec) : List (String × Json) :=
  r.map (fun p => (p.1, valueToJson p.2))

/-- Python dict merge as in a literal with unpacking: later entries update
earlier ones in place. -/
def pyDictUpdate (base upd : List (String × Json)) : List (String × Json) :=
  upd.foldl (fun acc p => dictInsert acc p.1 p.2) base

/-- json_generator._generate_json_format, at the document-object level
(json.dumps with indent 2 being the external printer); generated_at is
the passed-in instant. -/
def generateJsonFormat (p : ProcessedData) (now : String) : Json :=
  let metaBase : List (String × Json) :=
    [("filename", optStrJson p.filename), ("file_type", optStrJson p.file_type),
     ("generated_at", .jStr now), ("format", .jStr "json")]
  if p.file_type = some "xlsx" then
    let meta := metaBase ++
      [("sheet_count", .jInt (p.sheet_count.getD 0)), ("total_rows", .jInt (p.total_rows.getD 0))]
    let sheets := (p.sheets.getD []).map (fun q =>
      (q.1, Json.jObj
        [("metadata", .jObj
          [("sheet_name", .jStr q.1), ("row_count", .jInt q.2.row_count),
           ("column_count", .jInt q.2.column_count),
           ("headers", .jArr (q.2.headers.map Json.jStr))]),
         ("data", .jArr (q.2.data.map (fun r => Json.jObj (recToFields r))))]))
    .jObj [("metadata", .jObj meta), ("sheets", .jObj sheets)]
  else if p.file_type = some "csv" ∨ p.file_type = some "tsv" then
    let meta := metaBase ++
      [("row_count", .jInt (p.row_count.getD 0)), ("column_count", .jInt (p.column_count.getD 0)),
       ("headers", .jArr ((p.headers.getD []).map Json.jStr)),
       ("encoding", optStrJson p.encoding), ("delimiter", optStrJson p.delimiter)]
    .jObj [("metadata", .jObj meta),
           ("data", .jArr ((p.data.getD []).map (fun r => Json.jObj (recToFields r))))]
  else
    .jObj [("metadata", .jObj metaBase)]

/-- json_generator._generate_jsonl_format, as the list of line objects
(each line being json.dumps of one object).  For a file_type that is
neither xlsx nor csv/tsv no line is ever appended. -/
def generateJsonlFormat (p : ProcessedData) (now : String) : List Json :=
  let metaBase : List (String × Json) :=
    [("type", .jStr "metadata"), ("filename", optStrJson p.filename),
     ("file_type", optStrJson p.file_type), ("generated_at", .jStr now),
     ("format", .jStr "jsonl")]
  if p.file_type = some "xlsx" then
    let meta := metaBase ++
      [("sheet_count", .jInt (p.sheet_count.getD 0)), ("total_rows", .jInt (p.total_rows.getD 0))]
    let sheetLines := (p.sheets.getD []).map (fun q =>
      Json.jObj
        [("type", .jStr "sheet_metadata"), ("sheet_name", .jStr q.1),
         ("row_count", .jInt q.2.row_count), ("column_count", .jInt q.2.column_count),
         ("headers", .jArr (q.2.headers.map Json.jStr))] ::
      q.2.data.map (fun r =>
        Json.jObj (pyDictUpdate
          [("type", .jStr "data"), ("sheet_name", .jStr q.1)] (recToFields r))))
    Json.jObj meta :: sheetLines.flatten
  else if p.file_type = some "csv" ∨ p.file_type = some "tsv" then
    let meta := metaBase ++
      [("row_count", .jInt (p.row_count.getD 0)), ("column_count", .jInt (p.column_count.getD 0)),
       ("headers", .jArr ((p.headers.getD []).map Json.jStr)),
       ("encoding", optStrJson p.encoding), ("delimiter", optStrJson p.delimiter)]
    Json.jObj meta ::
      (p.data.getD []).map (fun r =>
        Json.jObj (pyDictUpdate [("type", .jStr "data")] (recToFields r)))
  else []

/-- json_generator._format_csv_value followed by the csv writer's str()
conversion: None becomes the empty field, booleans and numbers keep their
Python textual form, strings pass through (the list/dict branch cannot
receive a Value).  record.get of a missing header is None. -/
def formatCsvValue : Option Value → String
  | none => ""
  | some .vNull => ""
  | some (.vBool b) => if b then "True" else "False"
  | some (.vInt n) => toString n
  | some (.vFloat q) => toString q
  | some (.vStr s) => s

/-- json_generator._generate_csv_format, as header row plus data rows
(the csv writer's quoting being the external printer).  A missing data
key with a truthy sheets map is the multi-sheet rejection; the
isinstance(records, list) guard cannot fail for the typed inputs here. -/
def generateCsvFormat (p : ProcessedData) : Except String (List (List String)) :=
  let build : List PyRec → List String → List (List String) := fun records headers =>
    headers :: records.map (fun r => headers.map (fun h => formatCsvValue (List.lookup h r)))
  let finish : List PyRec → List (List String) := fun records =>
    let headers0 :=
      match p.headers with
      | some hs => if hs.isEmpty then sortStrings ((records.map (fun r => r.map Prod.fst)).flatten.dedup) else hs
      | none => sortStrings ((records.map (fun r => r.map Prod.fst)).flatten.dedup)
    let headers := if headers0.isEmpty then ["value"] else headers0
    build records headers
  match p.data with
  | none =>
    (match p.sheets with
     | some l =>
       if l.isEmpty then Except.ok (finish [])
       else Except.error "CSV output is not supported for multi-sheet Excel files"
     | none => Except.ok (finish []))
  | some records => Except.ok (finish records)

/-- The generated output at the document level: the dumped JSON object,
the jsonl line objects, or the csv rows. -/
inductive OutDoc where
  | jsonDoc : Json → OutDoc
  | jsonlDoc : List Json → OutDoc
  | csvDoc : List (List String) → OutDoc

/-- json_generator.generate_output: dispatch on the lowered format name;
any ConversionError raised inside the try block is caught and re-raised
with the format name prefixed. -/
def generateOutput (p : ProcessedData) (fmt now : String) : Except String OutDoc :=
  let res : Except String OutDoc :=
    let f := pyLower fmt
    if f = "json" then Except.ok (.jsonDoc (generateJsonFormat p now))
    else if f = "jsonl" then Except.ok (.jsonlDoc (generateJsonlFormat p now))
    else if f = "csv" then (generateCsvFormat p).map OutDoc.csvDoc
    else Except.error ("Unsupported output format: " ++ fmt)
  match res with
  | .ok v => .ok v
  | .error e => .error (pyUpper fmt ++ " generation failed: " ++ e)

/-! ### Helper lemmas -/

theorem lookup_replace_eq {α : Type} (d : List (String × α)) (k : String) (v : α)
    (h : d.any (fun p => p.1 == k) = true) :
    List.lookup k (d.map (fun p => if p.1 = k then (k, v) else p)) = some v := by
  induction d with
  | nil => simp at h
  | cons p rest ih =>
    by_cases hp : p.1 = k
    · rw [List.map_cons, if_pos hp]
      simp [List.lookup]
    · have hb : (p.1 == k) = false := beq_false_of_ne hp
      simp only [List.any_cons, hb, Bool.false_or] at h
      rw [List.map_cons, if_neg hp]
      simp [List.lookup, beq_false_of_ne (Ne.symm hp), ih h]

theorem lookup_replace_ne {α : Type} (d : List (String × α)) (k q : String) (v : α)
    (h : q ≠ k) :
    List.lookup q (d.map (fun p => if p.1 = k then (k, v) else p)) =
      List.lookup q d := by
  induction d with
  | nil => simp
  | cons p rest ih =>
    by_cases hp : p.1 = k
    · rw [List.map_cons, if_pos hp]
      have hq : (q == p.1) = false := beq_false_of_ne (fun e => h (e.trans hp))
      simp [List.lookup, hq, beq_false_of_ne h, ih]
    · rw [List.map_cons, if_neg hp]
      cases hq : (q == p.1) <;> simp [List.lookup, hq, ih]

theorem lookup_none_of_any_false {α : Type} (d : List (String × α)) (k : String)
    (h : d.any (fun p => p.1 == k) = false) : List.lookup k d = none := by
  induction d with
  | nil => simp
  | cons p rest ih =>
    simp only [List.any_cons, Bool.or_eq_false_iff] at h
    have hk : ¬p.1 = k := by
      intro e
      rw [e] at h
      simpa using h.1
    have hq : (k == p.1) = false := beq_false_of_ne (fun e => hk e.symm)
    simp [List.lookup, hq, ih h.2]

theorem lookup_append_right {α : Type} (d : List (String × α)) (l : List (String × α))
    (q : String) (h : List.lookup q d = none) :
    List.lookup q (d ++ l) = List.lookup q l := by
  induction d with
  | nil => simp
  | cons p rest ih =>
    cases hq : (q == p.1) with
    | true => simp [List.lookup, hq] at h
    | false =>
      simp only [List.lookup, hq] at h
      simp [List.lookup, hq, ih h]

theorem lookup_append_left {α : Type} (d : List (String × α)) (l : List (String × α))
    (q : String) (v : α) (h : List.lookup q d = some v) :
    List.lookup q (d ++ l) = some v := by
  induction d with
  | nil => simp at h
  | cons p rest ih =>
    cases hq : (q == p.1) with
    | true => simp_all [List.lookup, hq]
    | false =>
      simp only [List.lookup, hq] at h
      simp [List.lookup, hq, ih h]

/-- The dict assignment law: assigning key k sets k and leaves every other
key's binding unchanged. -/
theorem lookup_dictInsert {α : Type} (d : List (String × α)) (k q : String) (v : α) :
    List.lookup q (dictInsert d k v) = if q = k then some v else List.lookup q d := by
  unfold dictInsert
  by_cases hq : q = k
  · subst hq
    cases hany : d.any (fun p => p.1 == q) with
    | true => simp [hany, lookup_replace_eq d q v hany]
    | false =>
      simp [hany, lookup_append_right d [(q, v)] q (lookup_none_of_any_false d q hany),
        List.lookup]
  · cases hany : d.any (fun p => p.1 == k) with
    | true => simp [hany, lookup_replace_ne d k q v hq, hq]
    | false =>
      cases hd : List.lookup q d with
      | none =>
        simp [hany, hq, lookup_append_right d [(k, v)] q hd, List.lookup,
          beq_false_of_ne hq, hd]
      | some w => simp [hany, hq, lookup_append_left d [(k, v)] q w hd, hd]

/-- Updating a dict with entries whose keys all differ from k preserves
the binding of k. -/
theorem lookup_pyDictUpdate_preserved (k : String) (v : Json)
    (fields : List (String × Json)) :
    ∀ base : List (String × Json), List.lookup k base = some v →
      (∀ p ∈ fields, p.1 ≠ k) → List.lookup k (pyDictUpdate base fields) = some v := by
  induction fields with
  | nil => intro base hb _; simpa [pyDictUpdate] using hb
  | cons p rest ih =>
    intro base hb hk
    have hstep : List.lookup k (dictInsert base p.1 p.2) = some v := by
      rw [lookup_dictInsert]
      simp [Ne.symm (hk p (by simp)), hb]
    have := ih (dictInsert base p.1 p.2) hstep (fun q hq => hk q (by simp [hq]))
    simpa [pyDictUpdate, List.foldl_cons] using this

/-- The tabular dialect is always csv or tsv. -/
theorem csvFileExt_cases (fn : String) : csvFileExt fn = "csv" ∨ csvFileExt fn = "tsv" := by
  by_cases h : csvRawExt fn = "csv" ∨ csvRawExt fn = "tsv"
  · rw [csvFileExt, if_pos h]
    exact h
  · rw [csvFileExt, if_neg h]
    exact Or.inl rfl

/-- A successful excel process_file has a nonempty sheets map, and its
fields are exactly those of the returned structure. -/
theorem excelProcessFile_ok {wb : Workbook} {fn t : String} {pd : ExcelResult}
    (h : excelProcessFile wb fn t = Except.ok pd) :
    pd.sheets = wb.filterMap (fun p => (excelProcessSheet p.1 p.2).map (fun sd => (p.1, sd))) ∧
      pd.sheets.isEmpty = false := by
  simp only [excelProcessFile] at h
  split at h
  · exact absurd h (by simp)
  · next hne =>
    injection h with h2
    subst h2
    exact ⟨rfl, by simpa using hne⟩

/-- The csv rejection of the generator on any successfully read workbook:
the data key is absent and the sheets map nonempty, so the multi-sheet
rejection fires regardless of the sheet count. -/
theorem excelOkCsvReject {wb : Workbook} {fn t : String} {pd : ExcelResult} (m : String)
    (h : excelProcessFile wb fn t = Except.ok pd) :
    generateOutput (excelToPD pd) "csv" m =
      Except.error "CSV generation failed: CSV output is not supported for multi-sheet Excel files" := by
  obtain ⟨hs, hne⟩ := excelProcessFile_ok h
  unfold generateOutput generateCsvFormat excelToPD
  have h1 : pyLower "csv" = "csv" := rfl
  rw [h1]
  rw [if_neg (by decide), if_neg (by decide), if_pos rfl]
  simp only [hne]
  rfl

/-- The csv/tsv branch of the jsonl generator, spelled out. -/
theorem generateJsonl_csv_branch (p : ProcessedData) (m : String)
    (h : p.file_type = some "csv" ∨ p.file_type = some "tsv")
    (hx : p.file_type ≠ some "xlsx") :
    generateJsonlFormat p m =
      Json.jObj
        [("type", Json.jStr "metadata"), ("filename", optStrJson p.filename),
         ("file_type", optStrJson p.file_type), ("generated_at", Json.jStr m),
         ("format", Json.jStr "jsonl"),
         ("row_count", Json.jInt (p.row_count.getD 0)),
         ("column_count", Json.jInt (p.column_count.getD 0)),
         ("headers", Json.jArr ((p.headers.getD []).map Json.jStr)),
         ("encoding", optStrJson p.encoding), ("delimiter", optStrJson p.delimiter)] ::
      (p.data.getD []).map
        (fun r => Json.jObj (pyDictUpdate [("type", Json.jStr "data")] (recToFields r))) := by
  simp only [generateJsonlFormat]
  rw [if_neg hx, if_pos h]
  rfl

/-! ### Claims -/

/-- C1, counterexample: the workbook cell coercer maps the strings 1 and
0 (also after trimming) to the integers 1 and 0, not to the booleans the
claim asserts, because the numeric parse precedes the boolean check. -/
theorem c1_counterexample :
    excelProcessCellValue (Cell.cStr "1") = Value.vInt 1 ∧
    excelProcessCellValue (Cell.cStr "1") ≠ Value.vBool true ∧
    excelProcessCellValue (Cell.cStr " 0 ") = Value.vInt 0 ∧
    excelProcessCellValue (Cell.cStr " 0 ") ≠ Value.vBool false := by
  exact ⟨by decide, by decide, by decide, by decide⟩

/-- C1, amended: every workbook cell whose string value trims to 1 or 0
is coerced to Integer 1 or Integer 0; the 1/0 entries of the boolean
tuple are unreachable since the numeric branch fires first. -/
theorem c1_workbook_digit_strings_coerce_to_integers :
    (∀ s : String, pyStrip s = "1" → excelProcessCellValue (Cell.cStr s) = Value.vInt 1) ∧
    (∀ s : String, pyStrip s = "0" → excelProcessCellValue (Cell.cStr s) = Value.vInt 0) := by
  constructor <;>
    · intro s h
      have h3 : pyStripList s.toList = _ := congrArg String.data h
      show excelCoerceStr s = _
      simp only [excelCoerceStr, h3]
      decide

theorem c1_witness :
    pyStrip " 1 " = "1" ∧ excelProcessCellValue (Cell.cStr " 1 ") = Value.vInt 1 :=
  ⟨by decide, c1_workbook_digit_strings_coerce_to_integers.1 " 1 " (by decide)⟩

/-- C2, counterexample: the workbook reader's result embeds the
processing instant in its processed_at field, so two runs over identical
bytes at different instants give different RecordSet content. -/
theorem c2_counterexample :
    excelProcessFile [("S", [[Cell.cStr "a"], [Cell.cInt 1]])] "wb.xlsx"
        "2024-01-01T00:00:00+00:00" =
      Except.ok ⟨"wb.xlsx", "xlsx", [("S", ⟨["a"], [[("a", Value.vInt 1)]], 1, 1, "S"⟩)],
        1, "2024-01-01T00:00:00+00:00", 1⟩ ∧
    excelProcessFile [("S", [[Cell.cStr "a"], [Cell.cInt 1]])] "wb.xlsx"
        "2024-01-01T00:00:00+00:00" ≠
      excelProcessFile [("S", [[Cell.cStr "a"], [Cell.cInt 1]])] "wb.xlsx"
        "2024-01-01T00:00:01+00:00" := by
  exact ⟨by decide, by decide⟩

/-- C2, amended: apart from the embedded processed_at timestamp the
workbook reader is a pure function of bytes and filename: erasing that
one field makes two runs at different instants byte-identical. -/
theorem c2_workbook_reader_deterministic_modulo_timestamp :
    ∀ (wb : Workbook) (fn t₁ t₂ : String),
      (excelProcessFile wb fn t₁).map eraseProcessedAt =
        (excelProcessFile wb fn t₂).map eraseProcessedAt := by
  intro wb fn t₁ t₂
  by_cases h :
      (wb.filterMap (fun p => (excelProcessSheet p.1 p.2).map (fun sd => (p.1, sd)))).isEmpty = true
  · simp [excelProcessFile, h]
  · simp only [excelProcessFile, h, if_false, Bool.false_eq_true]
    rfl

/-- C3, counterexample: for a RecordSet produced by the json processor the
json serializer emits only the four-field metadata envelope; there is no
top-level data key at all, because the tabular branch tests for the
csv/tsv file types only. -/
theorem c3_counterexample :
    jsonProcessFile (Json.jArr [Json.jObj [("a", Json.jInt 1)]]) "data.json" "utf-8" "T0" =
      Except.ok ⟨"data.json", "json", [[("a", Value.vInt 1)]], ["a"], 1, 1, "utf-8", "T0"⟩ ∧
    generateOutput
        (jsonToPD ⟨"data.json", "json", [[("a", Value.vInt 1)]], ["a"], 1, 1, "utf-8", "T0"⟩)
        "json" "M" =
      Except.ok (OutDoc.jsonDoc (Json.jObj [("metadata", Json.jObj
        [("filename", Json.jStr "data.json"), ("file_type", Json.jStr "json"),
         ("generated_at", Json.jStr "M"), ("format", Json.jStr "json")])])) ∧
    List.lookup "data"
        [("metadata", Json.jObj
          [("filename", Json.jStr "data.json"), ("file_type", Json.jStr "json"),
           ("generated_at", Json.jStr "M"), ("format", Json.jStr "json")])] = none := by
  exact ⟨by decide, rfl, rfl⟩

/-- C3, amended: serializing any json-reader RecordSet to json yields one
object holding exactly a metadata envelope with filename, file_type,
generation instant and format tag, and no data array. -/
theorem c3_json_recordset_serializes_metadata_only :
    ∀ (payload : Json) (fn enc t m : String) (r : JsonResult),
      jsonProcessFile payload fn enc t = Except.ok r →
      generateOutput (jsonToPD r) "json" m =
        Except.ok (OutDoc.jsonDoc (Json.jObj [("metadata", Json.jObj
          [("filename", Json.jStr fn), ("file_type", Json.jStr "json"),
           ("generated_at", Json.jStr m), ("format", Json.jStr "json")])])) := by
  intro payload fn enc t m r h
  injection h with h2
  subst h2
  rfl

theorem c3_witness :
    generateOutput
        (jsonToPD ⟨"w.json", "json", [], [], 0, 0, "utf-8", "T"⟩) "json" "M" =
      Except.ok (OutDoc.jsonDoc (Json.jObj [("metadata", Json.jObj
        [("filename", Json.jStr "w.json"), ("file_type", Json.jStr "json"),
         ("generated_at", Json.jStr "M"), ("format", Json.jStr "json")])])) :=
  c3_json_recordset_serializes_metadata_only (Json.jArr []) "w.json" "utf-8" "T" "M"
    ⟨"w.json", "json", [], [], 0, 0, "utf-8", "T"⟩ rfl

/-- C4, counterexample: the json processor succeeds on the empty-list
payload, returning an empty RecordSet with zero rows instead of the
fatal EmptySource error the claim asserts. -/
theorem c4_counterexample :
    jsonProcessFile (Json.jArr []) "empty.json" "utf-8" "T0" =
      Except.ok ⟨"empty.json", "json", [], [], 0, 0, "utf-8", "T0"⟩ := by
  decide

/-- C4, amended: a JSON payload with no derivable records yields a
successful empty RecordSet (zero rows, zero columns); no EmptySource
failure exists on the json path. -/
theorem c4_empty_payload_yields_empty_recordset :
    ∀ fn enc t : String,
      jsonProcessFile (Json.jArr []) fn enc t =
        Except.ok ⟨fn, "json", [], [], 0, 0, enc, t⟩ := by
  intro fn enc t
  rfl

/-- C5, counterexample: the CSV table with cleaned headers type, x (from
the accepted input "type,x\nfoo,1") has its data line's type field set to
the record's own value foo: the record fields override the data
discriminator in the merged dict, so that line does not carry type data. -/
theorem c5_counterexample :
    generateJsonlFormat
        (csvToPD (csvProcessFile (["type", "x"], [[some "foo", some "1"]])
          "d.csv" "utf-8" "," "T0")) "M" =
      [Json.jObj
        [("type", Json.jStr "metadata"), ("filename", Json.jStr "d.csv"),
         ("file_type", Json.jStr "csv"), ("generated_at", Json.jStr "M"),
         ("format", Json.jStr "jsonl"), ("row_count", Json.jInt 1),
         ("column_count", Json.jInt 2),
         ("headers", Json.jArr [Json.jStr "type", Json.jStr "x"]),
         ("encoding", Json.jStr "utf-8"), ("delimiter", Json.jStr ",")],
       Json.jObj [("type", Json.jStr "foo"), ("x", Json.jInt 1)]] ∧
    List.lookup "type" [("type", Json.jStr "foo"), ("x", Json.jInt 1)] =
      some (Json.jStr "foo") ∧
    Json.jStr "foo" ≠ Json.jStr "data" := by
  refine ⟨rfl, rfl, ?_⟩
  intro h
  injection h with h2
  exact absurd h2 (by decide)

/-- C5, amended: the jsonl serialization of any tabular-reader RecordSet
is exactly one metadata-tagged line followed by the records in original
row order, 1 + row_count lines in all; each data line is the record's
fields merged over a type data entry, so it carries the type data
discriminator whenever the record has no type field of its own (a type
column overrides it, as the counterexample shows). -/
theorem c5_jsonl_roundtrip :
    ∀ (parsed : ParsedTable) (fn enc delim t m : String),
      (generateJsonlFormat (csvToPD (csvProcessFile parsed fn enc delim t)) m).length =
        1 + (csvProcessFile parsed fn enc delim t).row_count ∧
      (∃ meta : List (String × Json),
        generateJsonlFormat (csvToPD (csvProcessFile parsed fn enc delim t)) m =
          Json.jObj meta ::
            (csvProcessFile parsed fn enc delim t).data.map
              (fun r => Json.jObj (pyDictUpdate [("type", Json.jStr "data")] (recToFields r))) ∧
        List.lookup "type" meta = some (Json.jStr "metadata")) ∧
      (∀ r ∈ (csvProcessFile parsed fn enc delim t).data,
        (∀ p ∈ r, p.1 ≠ "type") →
        List.lookup "type" (pyDictUpdate [("type", Json.jStr "data")] (recToFields r)) =
          some (Json.jStr "data")) := by
  intro parsed fn enc delim t m
  have hft : (csvToPD (csvProcessFile parsed fn enc delim t)).file_type =
      some (csvFileExt fn) := rfl
  have hcs : (csvToPD (csvProcessFile parsed fn enc delim t)).file_type = some "csv" ∨
      (csvToPD (csvProcessFile parsed fn enc delim t)).file_type = some "tsv" := by
    rw [hft]
    rcases csvFileExt_cases fn with h | h <;> simp [h]
  have hx : (csvToPD (csvProcessFile parsed fn enc delim t)).file_type ≠ some "xlsx" := by
    rcases hcs with h | h <;> simp [h]
  have hb := generateJsonl_csv_branch (csvToPD (csvProcessFile parsed fn enc delim t)) m hcs hx
  refine ⟨?_, ⟨_, hb, rfl⟩, ?_⟩
  · rw [hb]
    simp only [List.length_cons, List.length_map]
    have he : ((csvToPD (csvProcessFile parsed fn enc delim t)).data.getD []).length =
        (csvProcessFile parsed fn enc delim t).row_count := rfl
    rw [he]
    omega
  · intro r _ hk
    refine lookup_pyDictUpdate_preserved "type" (Json.jStr "data") (recToFields r)
      [("type", Json.jStr "data")] rfl ?_
    intro p hp
    obtain ⟨q, hq, rfl⟩ := List.mem_map.mp hp
    exact hk q hq

theorem c5_witness :
    (generateJsonlFormat
        (csvToPD (csvProcessFile (["a"], [[some "1"], [some "2"]]) "t.csv" "utf-8" "," "T")) "M").length = 3 ∧
    List.lookup "type"
        (pyDictUpdate [("type", Json.jStr "data")] (recToFields [("a", Value.vInt 1)])) =
      some (Json.jStr "data") := by
  have h := c5_jsonl_roundtrip (["a"], [[some "1"], [some "2"]]) "t.csv" "utf-8" "," "T" "M"
  refine ⟨h.1, ?_⟩
  refine h.2.2 [("a", Value.vInt 1)] (by decide) ?_
  intro p hp
  have : p = ("a", Value.vInt 1) := by
    simpa using hp
  rw [this]
  decide

/-- C6: an unrecognized output format and a csv request against a
workbook RecordSet with two or more sheets both fail with a
ConversionError, producing no output document. -/
theorem c6_serialize_rejects :
    (∀ (p : ProcessedData) (fmt t : String),
       pyLower fmt ≠ "json" → pyLower fmt ≠ "jsonl" → pyLower fmt ≠ "csv" →
       generateOutput p fmt t =
         Except.error (pyUpper fmt ++ " generation failed: " ++
           ("Unsupported output format: " ++ fmt))) ∧
    (∀ (wb : Workbook) (fn t m : String) (pd : ExcelResult),
       excelProcessFile wb fn t = Except.ok pd → 2 ≤ pd.sheet_count →
       generateOutput (excelToPD pd) "csv" m =
         Except.error "CSV generation failed: CSV output is not supported for multi-sheet Excel files") := by
  constructor
  · intro p fmt t h1 h2 h3
    simp only [generateOutput]
    rw [if_neg h1, if_neg h2, if_neg h3]
  · intro wb fn t m pd h _
    exact excelOkCsvReject m h

theorem c6_witness :
    generateOutput ⟨none, none, none, none, none, none, none, none, none, none, none⟩
        "xml" "M" =
      Except.error (pyUpper "xml" ++ " generation failed: " ++
        ("Unsupported output format: " ++ "xml")) ∧
    generateOutput
        (excelToPD ⟨"w.xlsx", "xlsx",
          [("A", ⟨["h"], [[("h", Value.vInt 1)]], 1, 1, "A"⟩),
           ("B", ⟨["h"], [[("h", Value.vInt 2)]], 1, 1, "B"⟩)], 2, "T", 2⟩) "csv" "M" =
      Except.error "CSV generation failed: CSV output is not supported for multi-sheet Excel files" := by
  constructor
  · exact c6_serialize_rejects.1 ⟨none, none, none, none, none, none, none, none, none, none, none⟩
      "xml" "M" (by decide) (by decide) (by decide)
  · exact c6_serialize_rejects.2
      [("A", [[Cell.cStr "h"], [Cell.cInt 1]]), ("B", [[Cell.cStr "h"], [Cell.cInt 2]])]
      "w.xlsx" "T" "M"
      ⟨"w.xlsx", "xlsx",
        [("A", ⟨["h"], [[("h", Value.vInt 1)]], 1, 1, "A"⟩),
         ("B", ⟨["h"], [[("h", Value.vInt 2)]], 1, 1, "B"⟩)], 2, "T", 2⟩
      (by decide) (by decide)

/-- C7, counterexample: for low-confidence bytes that are valid utf-16
(and latin-1/cp1252) but not utf-8 — the oracle models the bytes
FF FE 61 00 — the csv-path sniffer returns latin-1 while the priority
list the claim states would return utf-16: the csv-path ladder is
utf-8, latin-1, cp1252, iso-8859-1, without utf-8-sig or utf-16. -/
theorem c7_counterexample :
    csvDetectEncoding ⟨none, 0⟩
        (fun e => e == "utf-16" || e == "latin-1" || e == "cp1252" || e == "iso-8859-1") =
      "latin-1" ∧
    specEncodingFallback
        (fun e => e == "utf-16" || e == "latin-1" || e == "cp1252" || e == "iso-8859-1") =
      "utf-16" ∧
    ("latin-1" : String) ≠ "utf-16" := by
  exact ⟨rfl, rfl, by decide⟩

/-- C7, amended: both sniffers are total (never raise).  The json-path
sniffer follows the claimed priority list utf-8, utf-8-sig, utf-16,
latin-1 when confidence is below 0.7; the csv-path sniffer instead uses
utf-8, latin-1, cp1252, iso-8859-1 (when the detector reports no encoding
or low confidence), returning utf-8 if none decodes. -/
theorem c7_encoding_fallback :
    (∀ (r : ChardetResult) (cd : String → Bool) (e : String),
       r.confidence < 7/10 →
       firstDecoding cd ["utf-8", "utf-8-sig", "utf-16", "latin-1"] = some e →
       jsonDetectEncoding r cd = e) ∧
    (∀ (r : ChardetResult) (cd : String → Bool),
       r.encoding = none ∨ r.confidence < 7/10 →
       csvDetectEncoding r cd =
         (firstDecoding cd ["utf-8", "latin-1", "cp1252", "iso-8859-1"]).getD "utf-8") := by
  constructor
  · intro r cd e hc hf
    simp only [jsonDetectEncoding]
    rw [if_pos hc, hf]
  · intro r cd h
    cases hr : r.encoding with
    | none => simp only [csvDetectEncoding, hr]
    | some e =>
      rcases h with h | h
      · rw [hr] at h
        exact absurd h (by simp)
      · simp only [csvDetectEncoding, hr]
        rw [if_pos (Or.inr h)]

theorem c7_witness :
    jsonDetectEncoding ⟨none, 0⟩ (fun _ => true) = "utf-8" ∧
    csvDetectEncoding ⟨none, 0⟩ (fun _ => true) = "utf-8" := by
  constructor
  · exact c7_encoding_fallback.1 ⟨none, 0⟩ (fun _ => true) "utf-8" (by norm_num) rfl
  · rw [c7_encoding_fallback.2 ⟨none, 0⟩ (fun _ => true) (Or.inl rfl)]
    rfl

/-- C8: the delimiter sniffer is total, returns a candidate delimiter
whenever the external dialect heuristic does, depends only on the first
2048 characters, on heuristic failure picks a candidate of maximal
frequency in the sample (comma when the sample contains no candidate),
and returns the semicolon on the example text. -/
theorem c8_delimiter_sniffer :
    (∀ (o : List Char → Option Char) (text : String),
       (∀ d, o (text.toList.take 2048) = some d → d ∈ delimCandidates) →
       detectDelimiter o text ∈ delimCandidates) ∧
    (∀ (o : List Char → Option Char) (t₁ t₂ : String),
       t₁.toList.take 2048 = t₂.toList.take 2048 →
       detectDelimiter o t₁ = detectDelimiter o t₂) ∧
    (∀ (o : List Char → Option Char) (text : String),
       o (text.toList.take 2048) = none →
       ∀ c ∈ delimCandidates,
         (text.toList.take 2048).count c ≤
           (text.toList.take 2048).count (detectDelimiter o text)) ∧
    (∀ (o : List Char → Option Char) (text : String),
       o (text.toList.take 2048) = none →
       (∀ c ∈ delimCandidates, (text.toList.take 2048).count c = 0) →
       detectDelimiter o text = ',') ∧
    (∀ o : List Char → Option Char,
       (o (("a;b;c\n1;2;3\n4;5;6" : String).toList.take 2048) = none ∨
        o (("a;b;c\n1;2;3\n4;5;6" : String).toList.take 2048) = some ';') →
       detectDelimiter o "a;b;c\n1;2;3\n4;5;6" = ';') := by
  refine ⟨?_, ?_, ?_, ?_, ?_⟩
  · intro o text ho
    simp only [detectDelimiter]
    cases hs : o (text.toList.take 2048) with
    | some d => exact ho d hs
    | none =>
      simp only [maxByFirst, List.foldl]
      split <;> split <;> split <;> simp [delimCandidates]
  · intro o t₁ t₂ h
    simp only [detectDelimiter, h]
  · intro o text ho c hc
    simp only [detectDelimiter, ho, maxByFirst, List.foldl]
    simp only [delimCandidates, List.mem_cons, List.not_mem_nil, or_false] at hc
    rcases hc with h | h | h | h <;> subst h <;>
      split <;> split <;> split <;> simp_all <;> omega
  · intro o text ho hz
    have h1 : (text.toList.take 2048).count ',' = 0 := hz ',' (by decide)
    have h2 : (text.toList.take 2048).count ';' = 0 := hz ';' (by decide)
    have h3 : (text.toList.take 2048).count '\t' = 0 := hz '\t' (by decide)
    have h4 : (text.toList.take 2048).count '|' = 0 := hz '|' (by decide)
    simp only [detectDelimiter, ho, maxByFirst, List.foldl, h1, h2, h3, h4]
    rfl
  · intro o h
    rcases h with h | h
    · simp only [detectDelimiter, h]
      rfl
    · simp only [detectDelimiter, h]

theorem c8_witness :
    ((fun _ : List Char => (none : Option Char)) (("a;b;c\n1;2;3\n4;5;6" : String).toList.take 2048) =
      none ∨
     (fun _ : List Char => (none : Option Char)) (("a;b;c\n1;2;3\n4;5;6" : String).toList.take 2048) =
      some ';') ∧
    detectDelimiter (fun _ => none) "a;b;c\n1;2;3\n4;5;6" = ';' :=
  ⟨Or.inl rfl, c8_delimiter_sniffer.2.2.2.2 (fun _ => none) (Or.inl rfl)⟩

/-- C9, counterexample: a sheet whose second row is fully empty.  The
full normalisation drops that row (before header selection and again by
the all-null record filter), but get_preview re-reads the raw rows
without either filter, so the preview's records are not the first
max_rows records of the full result. -/
theorem c9_counterexample :
    excelProcessFile [("S", [[Cell.cStr "a"], [Cell.cNone], [Cell.cInt 1]])] "p.xlsx" "T" =
      Except.ok ⟨"p.xlsx", "xlsx", [("S", ⟨["a"], [[("a", Value.vInt 1)]], 1, 1, "S"⟩)],
        1, "T", 1⟩ ∧
    excelGetPreview [("S", [[Cell.cStr "a"], [Cell.cNone], [Cell.cInt 1]])] "p.xlsx" 2 =
      ⟨"p.xlsx", "xlsx",
        [("S", ⟨["a"], [[("a", Value.vNull)], [("a", Value.vInt 1)]], 2, 2⟩)], 1⟩ ∧
    [[("a", Value.vNull)], [("a", Value.vInt 1)]] ≠
      ([[("a", Value.vInt 1)]] : List PyRec).take 2 := by
  exact ⟨by decide, by decide, by decide⟩

/-- C9, amended: the workbook preview covers at most 3 sheets; the csv
preview's records equal the first max_rows records of the full result
exactly when its separate pd.read_csv(nrows) parse returns the
truncation of the full parse (dtype re-inference over the truncated
sample can break this, so the csv preview too can change record content
relative to the full result); and the workbook preview's records per
sheet equal the first max_rows full records provided the sheet has no
fully-empty row and no all-null data row (which the workbook preview,
unlike the full path, does not drop: the counterexample). -/
theorem c9_preview_truncation :
    (∀ (wb : Workbook) (fn : String) (mr : Nat),
       (excelGetPreview wb fn mr).sheets.length ≤ 3) ∧
    (∀ (parsedFull parsedPrev : ParsedTable) (mr : Nat) (fn enc delim t : String),
       parsedPrev.1 = parsedFull.1 →
       parsedPrev.2 = parsedFull.2.take mr →
       csvGetPreviewData parsedPrev =
         (csvProcessFile parsedFull fn enc delim t).data.take mr) ∧
    (∀ (name : String) (hrow : List Cell) (dataRows : List (List Cell)) (mr : Nat)
       (sd : SheetData),
       (∀ r ∈ hrow :: dataRows, rowNonEmpty r = true) →
       (∀ r ∈ dataRows, recHasNonNull (buildRow (mkHeaders hrow) r) = true) →
       excelProcessSheet name (hrow :: dataRows) = some sd →
       excelPreviewSheet (hrow :: dataRows) mr =
         some ⟨sd.headers, sd.data.take mr, dataRows.length, (sd.data.take mr).length⟩) := by
  refine ⟨?_, ?_, ?_⟩
  · intro wb fn mr
    have h1 := List.length_filterMap_le
      (fun p => (excelPreviewSheet p.2 mr).map (fun sp => (p.1, sp))) (wb.take 3)
    have h2 : (wb.take 3).length ≤ 3 := by
      simp [List.length_take]
    exact le_trans h1 h2
  · intro parsedFull parsedPrev mr fn enc delim t h1 h2
    simp only [csvGetPreviewData, h1, h2, csvProcessFile, List.map_take]
  · intro name hrow dataRows mr sd h1 h2 h3
    have hf : (hrow :: dataRows).filter rowNonEmpty = hrow :: dataRows :=
      List.filter_eq_self.mpr h1
    have hd : (dataRows.map (buildRow (mkHeaders hrow))).filter recHasNonNull =
        dataRows.map (buildRow (mkHeaders hrow)) :=
      List.filter_eq_self.mpr (by
        intro a ha
        obtain ⟨r, hr, rfl⟩ := List.mem_map.mp ha
        exact h2 r hr)
    simp only [excelProcessSheet, List.isEmpty_cons, Bool.false_eq_true, if_false, hf, hd] at h3
    split at h3
    · exact absurd h3 (by simp)
    · injection h3 with h4
      subst h4
      simp only [excelPreviewSheet, List.isEmpty_cons, Bool.false_eq_true, if_false,
        List.headD_cons, List.drop_one, List.tail_cons, List.length_cons,
        Nat.add_sub_cancel, List.map_take]

theorem c9_witness :
    csvGetPreviewData (["a"], [[some "1"]]) =
      ((csvProcessFile (["a"], [[some "1"], [some "2"]]) "t2.csv" "utf-8" "," "T").data.take 1) ∧
    excelPreviewSheet [[Cell.cStr "a"], [Cell.cInt 1], [Cell.cInt 2]] 1 =
      some ⟨["a"], ([[("a", Value.vInt 1)], [("a", Value.vInt 2)]] : List PyRec).take 1, 2,
        (([[("a", Value.vInt 1)], [("a", Value.vInt 2)]] : List PyRec).take 1).length⟩ :=
  ⟨c9_preview_truncation.2.1 (["a"], [[some "1"], [some "2"]]) (["a"], [[some "1"]]) 1
      "t2.csv" "utf-8" "," "T" rfl (by decide),
   c9_preview_truncation.2.2 "S" [Cell.cStr "a"] [[Cell.cInt 1], [Cell.cInt 2]] 1
      ⟨["a"], [[("a", Value.vInt 1)], [("a", Value.vInt 2)]], 2, 1, "S"⟩
      (by decide) (by decide) (by decide)⟩

/-- C10: the csv serializer rejects every workbook RecordSet the reader
can produce — the reader never returns an empty sheets map, and the
generator keys on the truthiness of the sheets entry, not on the sheet
count, so a single-sheet workbook is rejected too (the witness). -/
theorem c10_csv_rejects_every_workbook_recordset :
    ∀ (wb : Workbook) (fn t m : String) (pd : ExcelResult),
      excelProcessFile wb fn t = Except.ok pd →
      generateOutput (excelToPD pd) "csv" m =
        Except.error "CSV generation failed: CSV output is not supported for multi-sheet Excel files" :=
  fun _ _ _ m _ h => excelOkCsvReject m h

theorem c10_witness :
    generateOutput
        (excelToPD ⟨"one.xlsx", "xlsx", [("Only", ⟨["h"], [[("h", Value.vInt 1)]], 1, 1, "Only"⟩)],
          1, "T", 1⟩) "csv" "M" =
      Except.error "CSV generation failed: CSV output is not supported for multi-sheet Excel files" :=
  c10_csv_rejects_every_workbook_recordset
    [("Only", [[Cell.cStr "h"], [Cell.cInt 1]])] "one.xlsx" "T" "M"
    ⟨"one.xlsx", "xlsx", [("Only", ⟨["h"], [[("h", Value.vInt 1)]], 1, 1, "Only"⟩)], 1, "T", 1⟩
    (by decide)

end BKV

